import Mathlib

/-!
Verification development for the citro3d state-assembly core:
the vertex buffer descriptor table (buffers.h) and the TexEnv
combiner-stage state object (texenv.h), shallowly embedded in Lean.
Machine words are modelled as `Nat` with explicit `% 2^w` truncation
where the C code narrows.
-/

set_option maxRecDepth 4000

namespace Citro3d

/-! ## Constants from the GPU register interface (libctru `gpu.h`),
referenced by the texenv.h inline functions. -/

/-- `GPU_TEVSRC` selector: primary (vertex) color, value 0. -/
def GPU_PRIMARY_COLOR : Nat := 0x0

/-- `GPU_TEVSRC` selector: previous combiner stage output, value 0xF. -/
def GPU_PREVIOUS : Nat := 0xF

/-- `GPU_COMBINEFUNC` code: replace, value 0. -/
def GPU_REPLACE : Nat := 0x0

/-- `GPU_COMBINEFUNC` code: modulate (multiply), value 1. -/
def GPU_MODULATE : Nat := 0x1

/-- `GPU_TEVSCALE` code for x1 output scale, value 0. -/
def GPU_TEVSCALE_1 : Nat := 0x0

/-- `GPU_TEVOP_RGB` identity operand ("source color"), value 0. -/
def GPU_TEVOP_RGB_SRC_COLOR : Nat := 0x0

/-- `GPU_TEVOP_A` identity operand ("source alpha"), value 0. -/
def GPU_TEVOP_A_SRC_ALPHA : Nat := 0x0

/-- `GPU_TEVSOURCES(a,b,c) = (a) | ((b) << 4) | ((c) << 8)`. -/
def GPU_TEVSOURCES (a b c : Nat) : Nat := a ||| (b <<< 4) ||| (c <<< 8)

/-- `GPU_TEVOPERANDS(a,b,c) = (a) | ((b) << 4) | ((c) << 8)`. -/
def GPU_TEVOPERANDS (a b c : Nat) : Nat := a ||| (b <<< 4) ||| (c <<< 8)

/-! ## The `C3D_TexEnvMode` enum (texenv.h). -/

/-- `C3D_RGB = BIT(0)`. -/
def C3D_RGB : Nat := 1

/-- `C3D_Alpha = BIT(1)`. -/
def C3D_Alpha : Nat := 2

/-- `C3D_Both = C3D_RGB | C3D_Alpha`. -/
def C3D_Both : Nat := 3

/-! ## The `C3D_TexEnv` struct (texenv.h).

The C struct holds `u16 srcRgb, srcAlpha`, then a union of a `u32 opAll`
with the bitfields `u32 opRgb:12, opAlpha:12` (bits 24..31 of the word are
padding), then `u16 funcRgb, funcAlpha`, `u32 color`, and
`u16 scaleRgb, scaleAlpha`.  The union is embedded as the single word
`opAll`; the two bitfields are views of that word defined below. -/

structure C3D_TexEnv where
  srcRgb : Nat
  srcAlpha : Nat
  opAll : Nat
  funcRgb : Nat
  funcAlpha : Nat
  color : Nat
  scaleRgb : Nat
  scaleAlpha : Nat
  deriving DecidableEq, Repr

/-- Reading the C bitfield `opRgb:12` (bits 0..11 of `opAll`). -/
def C3D_TexEnv.opRgb (env : C3D_TexEnv) : Nat := env.opAll % 2 ^ 12

/-- Reading the C bitfield `opAlpha:12` (bits 12..23 of `opAll`). -/
def C3D_TexEnv.opAlpha (env : C3D_TexEnv) : Nat := env.opAll / 2 ^ 12 % 2 ^ 12

/-- Writing the C bitfield `opRgb:12`: replaces bits 0..11 of the word,
leaving bits 12..31 intact (C truncates the assigned value to 12 bits). -/
def setOpRgbBits (w v : Nat) : Nat := w / 2 ^ 12 * 2 ^ 12 + v % 2 ^ 12

/-- Writing the C bitfield `opAlpha:12`: replaces bits 12..23 of the word,
leaving bits 0..11 and 24..31 intact. -/
def setOpAlphaBits (w v : Nat) : Nat :=
  w / 2 ^ 24 * 2 ^ 24 + v % 2 ^ 12 * 2 ^ 12 + w % 2 ^ 12

/-! ## The texenv.h inline functions. -/

/-- `C3D_TexEnvInit` (texenv.h lines 85-95): field-by-field reset to the
documented defaults; note `opAll = 0` zeroes the whole operations word. -/
def C3D_TexEnvInit (env : C3D_TexEnv) : C3D_TexEnv :=
  { env with
    srcRgb := GPU_TEVSOURCES GPU_PREVIOUS 0 0 % 2 ^ 16
    srcAlpha := GPU_TEVSOURCES GPU_PREVIOUS 0 0 % 2 ^ 16
    opAll := 0
    funcRgb := GPU_REPLACE % 2 ^ 16
    funcAlpha := GPU_REPLACE % 2 ^ 16
    color := 0xFFFFFFFF
    scaleRgb := GPU_TEVSCALE_1 % 2 ^ 16
    scaleAlpha := GPU_TEVSCALE_1 % 2 ^ 16 }

/-- `C3D_TexEnvSrc` (texenv.h lines 116-126): packs the three source
selectors and stores the packed value into the color and/or alpha source
word according to the mode mask. -/
def C3D_TexEnvSrc (env : C3D_TexEnv) (mode s1 s2 s3 : Nat) : C3D_TexEnv :=
  let param := GPU_TEVSOURCES s1 s2 s3
  let env1 := if mode &&& C3D_RGB ≠ 0 then { env with srcRgb := param % 2 ^ 16 } else env
  if mode &&& C3D_Alpha ≠ 0 then { env1 with srcAlpha := param % 2 ^ 16 } else env1

/-- `C3D_TexEnvOpRgb` (texenv.h lines 144-150): writes the packed operand
triple into the 12-bit `opRgb` bitfield. -/
def C3D_TexEnvOpRgb (env : C3D_TexEnv) (o1 o2 o3 : Nat) : C3D_TexEnv :=
  { env with opAll := setOpRgbBits env.opAll (GPU_TEVOPERANDS o1 o2 o3) }

/-- `C3D_TexEnvOpAlpha` (texenv.h lines 159-165): writes the packed operand
triple into the 12-bit `opAlpha` bitfield. -/
def C3D_TexEnvOpAlpha (env : C3D_TexEnv) (o1 o2 o3 : Nat) : C3D_TexEnv :=
  { env with opAll := setOpAlphaBits env.opAll (GPU_TEVOPERANDS o1 o2 o3) }

/-- `C3D_TexEnvFunc` (texenv.h lines 173-179). -/
def C3D_TexEnvFunc (env : C3D_TexEnv) (mode param : Nat) : C3D_TexEnv :=
  let env1 := if mode &&& C3D_RGB ≠ 0 then { env with funcRgb := param % 2 ^ 16 } else env
  if mode &&& C3D_Alpha ≠ 0 then { env1 with funcAlpha := param % 2 ^ 16 } else env1

/-- `C3D_TexEnvColor` (texenv.h lines 186-189). -/
def C3D_TexEnvColor (env : C3D_TexEnv) (color : Nat) : C3D_TexEnv :=
  { env with color := color % 2 ^ 32 }

/-- `C3D_TexEnvScale` (texenv.h lines 197-203). -/
def C3D_TexEnvScale (env : C3D_TexEnv) (mode param : Nat) : C3D_TexEnv :=
  let env1 := if mode &&& C3D_RGB ≠ 0 then { env with scaleRgb := param % 2 ^ 16 } else env
  if mode &&& C3D_Alpha ≠ 0 then { env1 with scaleAlpha := param % 2 ^ 16 } else env1

/-! ## Unpacking views of a packed source/operand word. -/

/-- First 4-bit selector of a packed `GPU_TEVSOURCES` word. -/
def srcWord1 (w : Nat) : Nat := w &&& 0xF

/-- Second 4-bit selector of a packed `GPU_TEVSOURCES` word. -/
def srcWord2 (w : Nat) : Nat := (w >>> 4) &&& 0xF

/-- Third 4-bit selector of a packed `GPU_TEVSOURCES` word. -/
def srcWord3 (w : Nat) : Nat := (w >>> 8) &&& 0xF

/-- The five-sub-setter composition that the `C3D_TexEnvInit` doc comment
(texenv.h lines 77-83) presents as equivalent to the init: source, operand
RGB, operand alpha, function, color, scale, each with its default
arguments. -/
def C3D_TexEnvInitBySetters (env : C3D_TexEnv) : C3D_TexEnv :=
  C3D_TexEnvScale
    (C3D_TexEnvColor
      (C3D_TexEnvFunc
        (C3D_TexEnvOpAlpha
          (C3D_TexEnvOpRgb
            (C3D_TexEnvSrc env C3D_Both GPU_PREVIOUS GPU_PRIMARY_COLOR GPU_PRIMARY_COLOR)
            GPU_TEVOP_RGB_SRC_COLOR GPU_TEVOP_RGB_SRC_COLOR GPU_TEVOP_RGB_SRC_COLOR)
          GPU_TEVOP_A_SRC_ALPHA GPU_TEVOP_A_SRC_ALPHA GPU_TEVOP_A_SRC_ALPHA)
        C3D_Both GPU_REPLACE)
      0xFFFFFFFF)
    C3D_Both GPU_TEVSCALE_1

/-- A stage whose operations-word padding bits (24..31) are nonzero;
reachable in C only by writing `opAll` directly. -/
def envPad : C3D_TexEnv := ⟨0, 0, 0x1000000, 0, 0, 0, 0, 0⟩

/-- A generic concrete stage used to instantiate universally quantified
theorems. -/
def envW : C3D_TexEnv := ⟨1, 2, 0xABCDEF, 4, 5, 6, 7, 8⟩

/-! ## The buffer descriptor table (buffers.h). -/

/-- Nibble `i` (bits `4*i .. 4*i+3`) of a word. -/
def nibble (x i : Nat) : Nat := x >>> (4 * i) % 2 ^ 4

/-- The `C3D_BufCfg` struct (buffers.h lines 9-13): a relative offset and
two packed format words `flags[0]`, `flags[1]`. -/
structure C3D_BufCfg where
  offset : Nat
  flags0 : Nat
  flags1 : Nat
  deriving DecidableEq, Repr

/-- The `C3D_BufInfo` struct (buffers.h lines 15-20): shared base physical
address, entry count, and up to 12 entries (kept here as the list of the
populated entries, in insertion order). -/
structure C3D_BufInfo where
  base_paddr : Nat
  bufCount : Nat
  buffers : List C3D_BufCfg
  deriving DecidableEq, Repr

/-- Modelled from the spec: the implementation of `BufInfo_Init` is not
under src/ (buffers.h line 25 only declares it).  Per spec §4.1, reset
restores zero entries and a fixed default base-pointer sentinel; the
sentinel's concrete value is not pinned by the spec and no claim depends
on it. -/
def BufInfo_DefaultBase : Nat := 0x18000000

/-- Modelled from the spec: `BufInfo_Init` (declaration only in buffers.h),
spec §4.1 "Reset". -/
def BufInfo_Init : C3D_BufInfo :=
  { base_paddr := BufInfo_DefaultBase, bufCount := 0, buffers := [] }

/-- Modelled from the spec: the implementation of `BufInfo_Add` is not
under src/ (buffers.h line 39 only declares it).  Per spec §4.1 it fails
with a distinct non-zero code when the table already holds 12 entries,
when the attribute count exceeds the 12-attribute maximum, or when the
buffer address precedes the base pointer; on success it stores the
relative offset `address - base` and packs the permutation, stride and
attribute count into the two format words, increments the count and
returns the new entry's zero-based index.  The bit layout follows the
`GPUREG_ATTRIBBUFFERi_CONFIG1` register format that the buffers.h doc
comment cites: permutation nibbles 0..7 fill format word 0, nibbles 8..11
the low 16 bits of format word 1, with the stride in bits 16..27 and the
attribute count in bits 28..31 of word 1; stores narrow to 32 bits. -/
def BufInfo_Add (info : C3D_BufInfo) (data stride attribCount permutation : Nat) :
    Int × C3D_BufInfo :=
  if info.bufCount = 12 then (-1, info)
  else if 12 < attribCount then (-2, info)
  else if data < info.base_paddr then (-3, info)
  else
    let cfg : C3D_BufCfg :=
      { offset := (data - info.base_paddr) % 2 ^ 32
        flags0 := permutation % 2 ^ 32
        flags1 := ((permutation >>> 32) ||| (stride <<< 16) ||| (attribCount <<< 28)) % 2 ^ 32 }
    (Int.ofNat info.bufCount,
     { info with bufCount := info.bufCount + 1, buffers := info.buffers ++ [cfg] })

/-- Unpacking the permutation mapping from a stored entry: physical
attribute `i` reads nibble `i`, the first eight from format word 0 and the
rest from the low 16 bits of format word 1. -/
def decodePermNibble (cfg : C3D_BufCfg) (i : Nat) : Nat :=
  if i < 8 then nibble cfg.flags0 i else nibble cfg.flags1 (i - 8)

/-- Unpacking the permutation from the second format word alone, reading
nibble `i` of `flags[1]` — the reading the claim under test asserts. -/
def decodePermNibbleWord1 (cfg : C3D_BufCfg) (i : Nat) : Nat :=
  nibble cfg.flags1 i

/-- `perm` encodes, nibble by nibble, a bijective mapping over
`[0, n)`: every nibble below `n` is a valid attribute index and no index
repeats. -/
def IsPermEncoding (n perm : Nat) : Prop :=
  (∀ i < n, nibble perm i < n) ∧
  ∀ i < n, ∀ j < n, nibble perm i = nibble perm j → i = j

instance (n perm : Nat) : Decidable (IsPermEncoding n perm) := by
  unfold IsPermEncoding
  infer_instance

/-- One request to `BufInfo_Add`. -/
structure BufAddReq where
  data : Nat
  stride : Nat
  attribCount : Nat
  permutation : Nat
  deriving DecidableEq, Repr

/-- Runs a sequence of `BufInfo_Add` calls, collecting each call's return
code. -/
def runAdds : C3D_BufInfo → List BufAddReq → List Int × C3D_BufInfo
  | info, [] => ([], info)
  | info, r :: rs =>
    let res := BufInfo_Add info r.data r.stride r.attribCount r.permutation
    let rest := runAdds res.2 rs
    (res.1 :: rest.1, rest.2)

/-! ## The combiner-stage context: stage slots, dirty flags, and the
deferred hardware commit. -/

/-- Modelled from the spec: the rendering context holding the combiner
stage table lives outside src/ (texenv.h lines 44-58 only declare
`C3D_GetTexEnv`, `C3D_SetTexEnv` and `C3D_DirtyTexEnv`).  Per spec §2/§4.2
the context holds the stage slots, a per-stage "needs resync" flag, and
the hardware-side mirror that the commit step rewrites. -/
structure TexEnvCtx where
  stage : List C3D_TexEnv
  stageDirty : List Bool
  hwStage : List C3D_TexEnv
  deriving DecidableEq, Repr

/-- Modelled from the spec: the operations that touch the combiner stage
table (implementations not under src/): installing a stage
(`C3D_SetTexEnv`), marking one dirty (`C3D_DirtyTexEnv`), editing a stage
in place through a pointer obtained from `C3D_GetTexEnv`, and the
rendering-state commit that flushes dirty stages to hardware. -/
inductive CtxOp where
  | setStage (i : Nat) (e : C3D_TexEnv)
  | markDirty (i : Nat)
  | editStage (i : Nat) (e : C3D_TexEnv)
  | commitState
  deriving DecidableEq, Repr

/-- The commit's hardware write-back: every dirty slot's configuration
replaces its hardware mirror, clean slots keep theirs. -/
def commitList : List C3D_TexEnv → List Bool → List C3D_TexEnv → List C3D_TexEnv
  | e :: es, true :: ds, _ :: hs => e :: commitList es ds hs
  | _ :: es, false :: ds, h :: hs => h :: commitList es ds hs
  | _, _, hs => hs

/-- Modelled from the spec: the transition function of the combiner-stage
context (spec §4.2): install marks the slot dirty, `C3D_DirtyTexEnv` only
sets the flag, in-place edits through a held pointer do not touch the
flag, and the commit rewrites hardware state from every dirty slot and
clears all flags. -/
def ctxStep : CtxOp → TexEnvCtx → TexEnvCtx
  | .setStage i e, c =>
    { c with stage := c.stage.set i e, stageDirty := c.stageDirty.set i true }
  | .markDirty i, c => { c with stageDirty := c.stageDirty.set i true }
  | .editStage i e, c => { c with stage := c.stage.set i e }
  | .commitState, c =>
    { c with hwStage := commitList c.stage c.stageDirty c.hwStage,
             stageDirty := c.stageDirty.map fun _ => false }

/-- A stage with multiply for color and replace for alpha (the spec §8
scenario), built through the setters. -/
def envMR : C3D_TexEnv :=
  C3D_TexEnvFunc (C3D_TexEnvFunc (C3D_TexEnvInit envW) C3D_RGB GPU_MODULATE)
    C3D_Alpha GPU_REPLACE

/-- A one-stage concrete context for witnesses. -/
def ctxW : TexEnvCtx :=
  { stage := [envMR], stageDirty := [false], hwStage := [C3D_TexEnvInit envW] }

end Citro3d

namespace Citro3d

/-- C3: after `C3D_TexEnvInit`, the five readable field groups hold the
documented defaults: both source words select the previous stage output as
first source, both operand bitfields are the identity code 0, both
functions are `GPU_REPLACE`, the constant color is 0xFFFFFFFF, and both
scales are `GPU_TEVSCALE_1`. -/
theorem texEnvInit_defaults (env : C3D_TexEnv) :
    srcWord1 (C3D_TexEnvInit env).srcRgb = GPU_PREVIOUS ∧
    srcWord1 (C3D_TexEnvInit env).srcAlpha = GPU_PREVIOUS ∧
    (C3D_TexEnvInit env).opRgb = 0 ∧
    (C3D_TexEnvInit env).opAlpha = 0 ∧
    (C3D_TexEnvInit env).funcRgb = GPU_REPLACE ∧
    (C3D_TexEnvInit env).funcAlpha = GPU_REPLACE ∧
    (C3D_TexEnvInit env).color = 0xFFFFFFFF ∧
    (C3D_TexEnvInit env).scaleRgb = GPU_TEVSCALE_1 ∧
    (C3D_TexEnvInit env).scaleAlpha = GPU_TEVSCALE_1 := by
  refine ⟨?_, ?_, ?_, ?_, ?_, ?_, ?_, ?_, ?_⟩ <;>
    simp [C3D_TexEnvInit, C3D_TexEnv.opRgb, C3D_TexEnv.opAlpha] <;> decide

/-- C6: for each mode-masked setter (`C3D_TexEnvSrc`, `C3D_TexEnvFunc`,
`C3D_TexEnvScale`), mode `C3D_RGB` writes only the color-channel field,
`C3D_Alpha` writes only the alpha-channel field, `C3D_Both` writes the same
packed value to both, and a mode with neither bit set leaves the stage
entirely unchanged. -/
theorem texEnv_mode_mask_effects (env : C3D_TexEnv) (s1 s2 s3 p mode : Nat) :
    (C3D_TexEnvSrc env C3D_RGB s1 s2 s3
        = { env with srcRgb := GPU_TEVSOURCES s1 s2 s3 % 2 ^ 16 }) ∧
    (C3D_TexEnvSrc env C3D_Alpha s1 s2 s3
        = { env with srcAlpha := GPU_TEVSOURCES s1 s2 s3 % 2 ^ 16 }) ∧
    (C3D_TexEnvSrc env C3D_Both s1 s2 s3
        = { env with srcRgb := GPU_TEVSOURCES s1 s2 s3 % 2 ^ 16,
                     srcAlpha := GPU_TEVSOURCES s1 s2 s3 % 2 ^ 16 }) ∧
    (mode &&& C3D_RGB = 0 → mode &&& C3D_Alpha = 0 →
        C3D_TexEnvSrc env mode s1 s2 s3 = env) ∧
    (C3D_TexEnvFunc env C3D_RGB p = { env with funcRgb := p % 2 ^ 16 }) ∧
    (C3D_TexEnvFunc env C3D_Alpha p = { env with funcAlpha := p % 2 ^ 16 }) ∧
    (C3D_TexEnvFunc env C3D_Both p
        = { env with funcRgb := p % 2 ^ 16, funcAlpha := p % 2 ^ 16 }) ∧
    (mode &&& C3D_RGB = 0 → mode &&& C3D_Alpha = 0 →
        C3D_TexEnvFunc env mode p = env) ∧
    (C3D_TexEnvScale env C3D_RGB p = { env with scaleRgb := p % 2 ^ 16 }) ∧
    (C3D_TexEnvScale env C3D_Alpha p = { env with scaleAlpha := p % 2 ^ 16 }) ∧
    (C3D_TexEnvScale env C3D_Both p
        = { env with scaleRgb := p % 2 ^ 16, scaleAlpha := p % 2 ^ 16 }) ∧
    (mode &&& C3D_RGB = 0 → mode &&& C3D_Alpha = 0 →
        C3D_TexEnvScale env mode p = env) := by
  refine ⟨rfl, rfl, rfl, ?_, rfl, rfl, rfl, ?_, rfl, rfl, rfl, ?_⟩
  · intro h1 h2; simp [C3D_TexEnvSrc, h1, h2]
  · intro h1 h2; simp [C3D_TexEnvFunc, h1, h2]
  · intro h1 h2; simp [C3D_TexEnvScale, h1, h2]

/-- C6 witness: concrete instance with mode 4 (neither bit set) leaving a
concrete stage unchanged. -/
theorem texEnv_mode_mask_effects_witness :
    C3D_TexEnvSrc envW 4 1 2 3 = envW ∧ C3D_TexEnvFunc envW 4 9 = envW ∧
    C3D_TexEnvScale envW 4 9 = envW :=
  ⟨(texEnv_mode_mask_effects envW 1 2 3 9 4).2.2.2.1 (by decide) (by decide),
   (texEnv_mode_mask_effects envW 1 2 3 9 4).2.2.2.2.2.2.2.1 (by decide) (by decide),
   (texEnv_mode_mask_effects envW 1 2 3 9 4).2.2.2.2.2.2.2.2.2.2.2 (by decide) (by decide)⟩

/-- C7: calling `C3D_TexEnvSrc` with the 2nd and 3rd sources at their
declared default `GPU_PRIMARY_COLOR` leaves selectors 2 and 3 of the
written channel's packed source word equal to `GPU_PRIMARY_COLOR`. -/
theorem texEnvSrc_default_tail_sources (env : C3D_TexEnv) (mode s1 : Nat)
    (hs : s1 ≤ 0xF) :
    (mode &&& C3D_RGB ≠ 0 →
      srcWord2 (C3D_TexEnvSrc env mode s1 GPU_PRIMARY_COLOR GPU_PRIMARY_COLOR).srcRgb
          = GPU_PRIMARY_COLOR ∧
      srcWord3 (C3D_TexEnvSrc env mode s1 GPU_PRIMARY_COLOR GPU_PRIMARY_COLOR).srcRgb
          = GPU_PRIMARY_COLOR) ∧
    (mode &&& C3D_Alpha ≠ 0 →
      srcWord2 (C3D_TexEnvSrc env mode s1 GPU_PRIMARY_COLOR GPU_PRIMARY_COLOR).srcAlpha
          = GPU_PRIMARY_COLOR ∧
      srcWord3 (C3D_TexEnvSrc env mode s1 GPU_PRIMARY_COLOR GPU_PRIMARY_COLOR).srcAlpha
          = GPU_PRIMARY_COLOR) := by
  have hparam : ∀ w : Nat, w ≤ 0xF →
      srcWord2 (GPU_TEVSOURCES w GPU_PRIMARY_COLOR GPU_PRIMARY_COLOR % 2 ^ 16) = 0 ∧
      srcWord3 (GPU_TEVSOURCES w GPU_PRIMARY_COLOR GPU_PRIMARY_COLOR % 2 ^ 16) = 0 := by
    intro w hw
    interval_cases w <;> constructor <;> decide
  constructor
  · intro h
    rcases Nat.eq_zero_or_pos (mode &&& C3D_Alpha) with h2 | h2
    · simp [C3D_TexEnvSrc, h, h2, GPU_PRIMARY_COLOR]
      exact hparam s1 hs
    · simp [C3D_TexEnvSrc, h, Nat.pos_iff_ne_zero.mp h2, GPU_PRIMARY_COLOR]
      exact hparam s1 hs
  · intro h
    simp [C3D_TexEnvSrc, h, GPU_PRIMARY_COLOR]
    exact hparam s1 hs

/-- C7 witness: concrete instance at `s1 = GPU_PREVIOUS`, mode `C3D_Both`. -/
theorem texEnvSrc_default_tail_sources_witness :
    srcWord2 (C3D_TexEnvSrc envW C3D_Both GPU_PREVIOUS GPU_PRIMARY_COLOR
        GPU_PRIMARY_COLOR).srcRgb = GPU_PRIMARY_COLOR ∧
    srcWord3 (C3D_TexEnvSrc envW C3D_Both GPU_PREVIOUS GPU_PRIMARY_COLOR
        GPU_PRIMARY_COLOR).srcAlpha = GPU_PRIMARY_COLOR :=
  ⟨((texEnvSrc_default_tail_sources envW C3D_Both GPU_PREVIOUS (by decide)).1
      (by decide)).1,
   ((texEnvSrc_default_tail_sources envW C3D_Both GPU_PREVIOUS (by decide)).2
      (by decide)).2⟩

/-- C8 counterexample: on a stage whose operations-word padding bits
(24..31) are nonzero, `C3D_TexEnvInit` (which zeroes the whole `opAll`
word) differs from the composition of the five sub-setters (which can only
touch bits 0..23). -/
theorem texEnvInit_vs_setters_counterexample :
    C3D_TexEnvInit envPad ≠ C3D_TexEnvInitBySetters envPad := by decide

/-- C8 amended: on every stage whose operations-word padding bits (24..31)
are zero — in particular any stage previously initialized or only ever
manipulated through the setters — `C3D_TexEnvInit` produces exactly the
state of the five-sub-setter composition with default parameters. -/
theorem texEnvInit_eq_setters_of_padding_clear (env : C3D_TexEnv)
    (h : env.opAll < 2 ^ 24) :
    C3D_TexEnvInit env = C3D_TexEnvInitBySetters env := by
  unfold C3D_TexEnvInit C3D_TexEnvInitBySetters
  unfold C3D_TexEnvScale C3D_TexEnvColor C3D_TexEnvFunc C3D_TexEnvOpAlpha
    C3D_TexEnvOpRgb C3D_TexEnvSrc setOpRgbBits setOpAlphaBits
  simp [C3D_RGB, C3D_Alpha, C3D_Both, GPU_TEVOPERANDS, GPU_TEVSOURCES,
    GPU_TEVOP_RGB_SRC_COLOR, GPU_TEVOP_A_SRC_ALPHA, GPU_PREVIOUS,
    GPU_PRIMARY_COLOR, GPU_REPLACE, GPU_TEVSCALE_1]
  omega

/-- C8 witness: the amended equivalence at a concrete stage with clear
padding bits. -/
theorem texEnvInit_eq_setters_of_padding_clear_witness :
    envW.opAll < 2 ^ 24 ∧ C3D_TexEnvInit envW = C3D_TexEnvInitBySetters envW :=
  ⟨by decide, texEnvInit_eq_setters_of_padding_clear envW (by decide)⟩

/-- C10: `C3D_TexEnvOpRgb` writes only the low 12-bit `opRgb` bitfield of
the shared `opAll` word (bits 12..31, hence `opAlpha`, are unchanged), and
`C3D_TexEnvOpAlpha` writes only bits 12..23 (`opRgb` and the padding bits
24..31 are unchanged); neither touches any other stage field. -/
theorem texEnvOp_bitfield_isolation (env : C3D_TexEnv) (o1 o2 o3 : Nat) :
    ((C3D_TexEnvOpRgb env o1 o2 o3).opRgb = GPU_TEVOPERANDS o1 o2 o3 % 2 ^ 12) ∧
    ((C3D_TexEnvOpRgb env o1 o2 o3).opAlpha = env.opAlpha) ∧
    ((C3D_TexEnvOpRgb env o1 o2 o3).opAll / 2 ^ 12 = env.opAll / 2 ^ 12) ∧
    (C3D_TexEnvOpRgb env o1 o2 o3
        = { env with opAll := (C3D_TexEnvOpRgb env o1 o2 o3).opAll }) ∧
    ((C3D_TexEnvOpAlpha env o1 o2 o3).opAlpha = GPU_TEVOPERANDS o1 o2 o3 % 2 ^ 12) ∧
    ((C3D_TexEnvOpAlpha env o1 o2 o3).opRgb = env.opRgb) ∧
    ((C3D_TexEnvOpAlpha env o1 o2 o3).opAll / 2 ^ 24 = env.opAll / 2 ^ 24) ∧
    (C3D_TexEnvOpAlpha env o1 o2 o3
        = { env with opAll := (C3D_TexEnvOpAlpha env o1 o2 o3).opAll }) := by
  refine ⟨?_, ?_, ?_, rfl, ?_, ?_, ?_, rfl⟩ <;>
    dsimp only [C3D_TexEnvOpRgb, C3D_TexEnvOpAlpha, setOpRgbBits, setOpAlphaBits,
      C3D_TexEnv.opRgb, C3D_TexEnv.opAlpha] <;> omega

/-! ## Helper lemmas about nibbles of packed words. -/

theorem nibble_of_mod (x i m : Nat) (h : 4 * i + 4 ≤ m) :
    nibble (x % 2 ^ m) i = nibble x i := by
  unfold nibble
  apply Nat.eq_of_testBit_eq
  intro j
  simp only [Nat.testBit_mod_two_pow, Nat.testBit_shiftRight]
  rcases Nat.lt_or_ge j 4 with hj | hj
  · simp [hj, show 4 * i + j < m by omega]
  · simp [show ¬ (j < 4) by omega]

theorem nibble_lor_high (x y : Nat) (i : Nat) (hy : y % 2 ^ 16 = 0) (hi : i < 4) :
    nibble (x ||| y) i = nibble x i := by
  unfold nibble
  apply Nat.eq_of_testBit_eq
  intro j
  simp only [Nat.testBit_mod_two_pow, Nat.testBit_shiftRight, Nat.testBit_or]
  rcases Nat.lt_or_ge j 4 with hj | hj
  · have hyb : y.testBit (4 * i + j) = false := by
      have h1 : (y % 2 ^ 16).testBit (4 * i + j) = y.testBit (4 * i + j) := by
        simp only [Nat.testBit_mod_two_pow]
        simp [show 4 * i + j < 16 by omega]
      rw [hy] at h1
      simpa using h1.symm
    simp [hj, hyb]
  · simp [show ¬ (j < 4) by omega]

theorem nibble_shiftRight32 (x i : Nat) : nibble (x >>> 32) i = nibble x (i + 8) := by
  unfold nibble
  rw [← Nat.shiftRight_add]
  have h : 32 + 4 * i = 4 * (i + 8) := by omega
  rw [h]

theorem shl16_mod_two_pow16 (s : Nat) : (s <<< 16) % 2 ^ 16 = 0 := by
  simp [Nat.shiftLeft_eq, Nat.mul_mod_left]

theorem shl28_mod_two_pow16 (s : Nat) : (s <<< 28) % 2 ^ 16 = 0 := by
  rw [Nat.shiftLeft_eq]
  have h : (2 : Nat) ^ 28 = 2 ^ 12 * 2 ^ 16 := by norm_num
  rw [h, ← Nat.mul_assoc]
  simp [Nat.mul_mod_left]

/-! ## Helper lemmas about `BufInfo_Add` and `runAdds`. -/

theorem bufInfoAdd_success (info : C3D_BufInfo) (d s c p : Nat)
    (h : 0 ≤ (BufInfo_Add info d s c p).1) :
    (BufInfo_Add info d s c p).1 = Int.ofNat info.bufCount ∧
    (BufInfo_Add info d s c p).2.bufCount = info.bufCount + 1 := by
  unfold BufInfo_Add at h ⊢
  split_ifs at h ⊢
  · simp at h
  · simp at h
  · simp at h
  · exact ⟨rfl, rfl⟩

theorem runAdds_spec (l : List BufAddReq) (info : C3D_BufInfo)
    (h : ∀ code ∈ (runAdds info l).1, 0 ≤ code) :
    (runAdds info l).2.bufCount = info.bufCount + l.length ∧
    ∀ k, k < l.length →
      (runAdds info l).1[k]? = some (Int.ofNat (info.bufCount + k)) := by
  induction l generalizing info with
  | nil => simp [runAdds]
  | cons r rs ih =>
    have hhead : 0 ≤ (BufInfo_Add info r.data r.stride r.attribCount r.permutation).1 :=
      h _ (by simp [runAdds])
    obtain ⟨hcode, hcount⟩ := bufInfoAdd_success info r.data r.stride r.attribCount
      r.permutation hhead
    have hrest := ih (BufInfo_Add info r.data r.stride r.attribCount r.permutation).2
      (fun code hc => h code (by simp [runAdds]; right; exact hc))
    constructor
    · have h1 := hrest.1
      simp only [runAdds, List.length_cons]
      omega
    · intro k hk
      match k with
      | 0 => simpa [runAdds] using hcode
      | k' + 1 =>
        have := hrest.2 k' (by simpa using hk)
        rw [hcount] at this
        simpa [runAdds, Nat.add_assoc, Nat.add_comm 1 k'] using this

/-! ## Helper lemma about the commit write-back. -/

theorem commitList_getElem (es : List C3D_TexEnv) (ds : List Bool)
    (hs : List C3D_TexEnv) (hlen1 : ds.length = es.length)
    (hlen2 : hs.length = es.length) :
    ∀ i : Nat, ds[i]? = some true → (commitList es ds hs)[i]? = es[i]? := by
  induction es generalizing ds hs with
  | nil =>
    intro i hi
    cases ds with
    | nil => simp at hi
    | cons dd ds => simp at hlen1
  | cons e es ih =>
    intro i hi
    cases ds with
    | nil => simp at hi
    | cons dd ds =>
      cases hs with
      | nil => simp at hlen2
      | cons hh hs =>
        have hl1 : ds.length = es.length := by simpa using hlen1
        have hl2 : hs.length = es.length := by simpa using hlen2
        cases dd with
        | true =>
          match i with
          | 0 => simp [commitList]
          | i' + 1 =>
            have := ih ds hs hl1 hl2 i' (by simpa using hi)
            simpa [commitList] using this
        | false =>
          match i with
          | 0 => simp at hi
          | i' + 1 =>
            have := ih ds hs hl1 hl2 i' (by simpa using hi)
            simpa [commitList] using this

end Citro3d

namespace Citro3d

/-- C1 counterexample: with three attributes, permutation 0x120 (a bijection
over [0,3)), stride 12, the stored second format word does not by itself
decode back to the mapping: its nibble 1 is 0, not 2 — nibbles 0..7 of the
permutation live in the first format word. -/
theorem perm_word1_counterexample :
    IsPermEncoding 3 0x120 ∧
    ¬ (∀ i < 3, decodePermNibbleWord1
        (((BufInfo_Add BufInfo_Init BufInfo_DefaultBase 12 3 0x120).2.buffers.getLast?).getD
          ⟨0, 0, 0⟩) i = nibble 0x120 i) := by
  decide

/-- C1 amended: for every attribute count n in 1..12 and bijective
permutation over [0, n), a successful `BufInfo_Add` packs the permutation
across the entry's two format words — nibbles 0..7 into word 0 and nibbles
8..11 into the low 16 bits of word 1, alongside stride and attribute
count — such that unpacking the words yields the original mapping. -/
theorem perm_pack_roundtrip (info : C3D_BufInfo) (d s n perm : Nat)
    (hn1 : 1 ≤ n) (hn : n ≤ 12) (hperm : IsPermEncoding n perm)
    (hacc : 0 ≤ (BufInfo_Add info d s n perm).1) :
    ∃ e, (BufInfo_Add info d s n perm).2.buffers.getLast? = some e ∧
      ∀ i < n, decodePermNibble e i = nibble perm i := by
  unfold BufInfo_Add at hacc ⊢
  split_ifs at hacc ⊢
  · simp at hacc
  · simp at hacc
  · simp at hacc
  · refine ⟨_, List.getLast?_concat _, ?_⟩
    intro i hi
    unfold decodePermNibble
    dsimp only
    split_ifs with hi8
    · exact nibble_of_mod perm i 32 (by omega)
    · have hi4 : i - 8 < 4 := by omega
      rw [nibble_of_mod _ _ 32 (by omega)]
      rw [nibble_lor_high _ _ _ (shl28_mod_two_pow16 _) hi4]
      rw [nibble_lor_high _ _ _ (shl16_mod_two_pow16 _) hi4]
      rw [nibble_shiftRight32]
      congr 1
      omega

/-- C1 amended witness: the round trip at n = 3, permutation 0x120, on a
fresh table. -/
theorem perm_pack_roundtrip_witness :
    (1 ≤ 3 ∧ 3 ≤ 12 ∧ IsPermEncoding 3 0x120 ∧
      0 ≤ (BufInfo_Add BufInfo_Init BufInfo_DefaultBase 12 3 0x120).1) ∧
    ∃ e, (BufInfo_Add BufInfo_Init BufInfo_DefaultBase 12 3 0x120).2.buffers.getLast?
        = some e ∧ ∀ i < 3, decodePermNibble e i = nibble 0x120 i :=
  ⟨⟨by decide, by decide, by decide, by decide⟩,
   perm_pack_roundtrip BufInfo_Init BufInfo_DefaultBase 12 3 0x120
     (by decide) (by decide) (by decide) (by decide)⟩

/-- C2: whenever the table is full, the attribute count exceeds the
maximum, or the address precedes the base pointer, `BufInfo_Add` returns a
non-zero code and leaves the table completely unchanged. -/
theorem bufInfoAdd_failure_frame (info : C3D_BufInfo) (d s c p : Nat)
    (h : info.bufCount = 12 ∨ 12 < c ∨ d < info.base_paddr) :
    (BufInfo_Add info d s c p).1 ≠ 0 ∧ (BufInfo_Add info d s c p).2 = info := by
  unfold BufInfo_Add
  split_ifs with h1 h2 h3
  · exact ⟨by norm_num, rfl⟩
  · exact ⟨by norm_num, rfl⟩
  · exact ⟨by norm_num, rfl⟩
  · rcases h with h | h | h
    · exact absurd h h1
    · exact absurd h h2
    · exact absurd h h3

/-- A table already holding 12 entries, for the C2 witness. -/
def bufInfoFull : C3D_BufInfo := { base_paddr := 0, bufCount := 12, buffers := [] }

/-- C2 witness: adding a 13th buffer to a full table fails and leaves the
table unchanged. -/
theorem bufInfoAdd_failure_frame_witness :
    (BufInfo_Add bufInfoFull 5 1 2 3).1 ≠ 0 ∧
    (BufInfo_Add bufInfoFull 5 1 2 3).2 = bufInfoFull :=
  bufInfoAdd_failure_frame bufInfoFull 5 1 2 3 (Or.inl (by decide))

/-- C4: every accepted (address, base) pair has address ≥ base, and the
offset stored in the new entry is exactly address − base. -/
theorem bufInfoAdd_offset_roundtrip (info : C3D_BufInfo) (d s c p : Nat)
    (hacc : 0 ≤ (BufInfo_Add info d s c p).1) (hd : d < 2 ^ 32) :
    info.base_paddr ≤ d ∧
    ∃ e, (BufInfo_Add info d s c p).2.buffers.getLast? = some e ∧
      (e.offset : Int) = (d : Int) - (info.base_paddr : Int) := by
  unfold BufInfo_Add at hacc ⊢
  split_ifs at hacc ⊢ with h1 h2 h3
  · simp at hacc
  · simp at hacc
  · simp at hacc
  · refine ⟨by omega, _, List.getLast?_concat _, ?_⟩
    have hlt : (d - info.base_paddr) % 2 ^ 32 = d - info.base_paddr :=
      Nat.mod_eq_of_lt (by omega)
    dsimp only
    rw [hlt]
    omega

/-- C4 witness: the stored offset at address base + 24 on a fresh table. -/
theorem bufInfoAdd_offset_roundtrip_witness :
    (0 ≤ (BufInfo_Add BufInfo_Init (BufInfo_DefaultBase + 24) 8 1 0).1 ∧
      BufInfo_DefaultBase + 24 < 2 ^ 32) ∧
    BufInfo_Init.base_paddr ≤ BufInfo_DefaultBase + 24 ∧
    ∃ e, (BufInfo_Add BufInfo_Init (BufInfo_DefaultBase + 24) 8 1 0).2.buffers.getLast?
        = some e ∧
      (e.offset : Int) = ((BufInfo_DefaultBase + 24 : Nat) : Int)
        - (BufInfo_Init.base_paddr : Int) :=
  ⟨⟨by decide, by decide⟩,
   bufInfoAdd_offset_roundtrip BufInfo_Init (BufInfo_DefaultBase + 24) 8 1 0
     (by decide) (by decide)⟩

/-- C5: starting from a reset table, if every add in a sequence succeeds,
then after the k-th add the entry count is k, and the k-th call returned
the zero-based index k (the entry count before the call). -/
theorem bufInfo_sequential_adds (l : List BufAddReq)
    (h : ∀ code ∈ (runAdds BufInfo_Init l).1, 0 ≤ code) :
    (runAdds BufInfo_Init l).2.bufCount = l.length ∧
    ∀ k, k < l.length → (runAdds BufInfo_Init l).1[k]? = some (Int.ofNat k) := by
  have hspec := runAdds_spec l BufInfo_Init h
  constructor
  · simpa [BufInfo_Init] using hspec.1
  · intro k hk
    have := hspec.2 k hk
    simpa [BufInfo_Init] using this

/-- The spec §8 scenario: three buffers with strides 12, 8, 20 and
attribute counts 2, 1, 3, at base + 0, base + 24, base + 32. -/
def reqsW : List BufAddReq :=
  [⟨BufInfo_DefaultBase, 12, 2, 0x10⟩,
   ⟨BufInfo_DefaultBase + 24, 8, 1, 0x0⟩,
   ⟨BufInfo_DefaultBase + 32, 20, 3, 0x210⟩]

/-- C5 witness: the three-add scenario succeeds; the count ends at 3 and
the second call returned index 1. -/
theorem bufInfo_sequential_adds_witness :
    (∀ code ∈ (runAdds BufInfo_Init reqsW).1, 0 ≤ code) ∧
    (runAdds BufInfo_Init reqsW).2.bufCount = 3 ∧
    (runAdds BufInfo_Init reqsW).1[1]? = some (Int.ofNat 1) :=
  ⟨by decide,
   (bufInfo_sequential_adds reqsW (by decide)).1,
   (bufInfo_sequential_adds reqsW (by decide)).2 1 (by decide)⟩

/-- C9: marking a stage dirty is observable; a dirty flag survives every
operation except the rendering-state commit (it never clears
spontaneously, so re-marked edits are not dropped); the commit rewrites
the dirty stage's hardware mirror from the stage's configuration and is
the only thing that clears the flag. -/
theorem texEnv_dirty_commit_contract (c : TexEnvCtx) (i : Nat) (op : CtxOp)
    (hlen1 : c.stageDirty.length = c.stage.length)
    (hlen2 : c.hwStage.length = c.stage.length) :
    (i < c.stageDirty.length →
      (ctxStep (.markDirty i) c).stageDirty[i]? = some true) ∧
    (c.stageDirty[i]? = some true → op ≠ .commitState →
      (ctxStep op c).stageDirty[i]? = some true) ∧
    (c.stageDirty[i]? = some true →
      (ctxStep .commitState c).hwStage[i]? = c.stage[i]?) ∧
    (i < c.stageDirty.length →
      (ctxStep .commitState c).stageDirty[i]? = some false) := by
  refine ⟨?_, ?_, ?_, ?_⟩
  · intro hi
    simp [ctxStep, List.getElem?_set, hi]
  · intro hi hop
    have hilen : i < c.stageDirty.length := by
      by_contra hc
      rw [List.getElem?_eq_none (by omega)] at hi
      exact Option.noConfusion hi
    cases op with
    | setStage j e =>
      by_cases hij : j = i
      · subst hij
        simp [ctxStep, List.getElem?_set, hilen]
      · simpa [ctxStep, List.getElem?_set_ne hij] using hi
    | markDirty j =>
      by_cases hij : j = i
      · subst hij
        simp [ctxStep, List.getElem?_set, hilen]
      · simpa [ctxStep, List.getElem?_set_ne hij] using hi
    | editStage j e => simpa [ctxStep] using hi
    | commitState => exact absurd rfl hop
  · intro hi
    exact commitList_getElem c.stage c.stageDirty c.hwStage hlen1 hlen2 i hi
  · intro hi
    have : c.stageDirty[i]?.isSome := by
      rw [List.getElem?_eq_getElem hi]
      rfl
    rcases Option.isSome_iff_exists.mp this with ⟨b, hb⟩
    simp [ctxStep, hb, hi]

/-- C9 witness: the spec §8 scenario — a stage with multiply color and
replace alpha is installed, marked dirty; the flag is observable, survives
an in-place edit, and the commit writes the stage to hardware and clears
the flag. -/
theorem texEnv_dirty_commit_contract_witness :
    ((ctxStep (.markDirty 0) ctxW).stageDirty[0]? = some true) ∧
    ((ctxStep (.editStage 0 envW) (ctxStep (.markDirty 0) ctxW)).stageDirty[0]?
        = some true) ∧
    ((ctxStep .commitState (ctxStep (.markDirty 0) ctxW)).hwStage[0]?
        = (ctxStep (.markDirty 0) ctxW).stage[0]?) ∧
    ((ctxStep .commitState (ctxStep (.markDirty 0) ctxW)).stageDirty[0]?
        = some false) :=
  ⟨(texEnv_dirty_commit_contract ctxW 0 .commitState (by decide) (by decide)).1
     (by decide),
   (texEnv_dirty_commit_contract (ctxStep (.markDirty 0) ctxW) 0
       (.editStage 0 envW) (by decide) (by decide)).2.1 (by decide) (by decide),
   (texEnv_dirty_commit_contract (ctxStep (.markDirty 0) ctxW) 0
       (.editStage 0 envW) (by decide) (by decide)).2.2.1 (by decide),
   (texEnv_dirty_commit_contract (ctxStep (.markDirty 0) ctxW) 0
       (.editStage 0 envW) (by decide) (by decide)).2.2.2 (by decide)⟩

end Citro3d
